import Mathlib

/-!
Verification of the Image Generation Orchestrator of Paper2Slides
(`paper2slides/generator/image_generator.py`), shallowly embedded in Lean.

Image bytes are modelled as abstract `String`s; the base64 transport
encoding, which the code only ever round-trips (encode on store, decode on
send), is modelled as the identity on those abstract byte strings.  Network
calls are modelled by oracles: the image-generation backend as a function
from slide index to an optional `(bytes, mime)` result (`none` meaning the
call raised after its retries), and the style-resolution LLM as a function
from the user style string to a `ProcessedStyle`.  Thread-pool completion
order is an explicit list of slide indices.
-/

namespace Paper2Slides

/-- Filename constants from `image_generator.py`. -/
def GENERATED_IMAGE_FILENAME : String := "generated.png"

/-- Alternative filenames checked on import, in the fixed listed order. -/
def IMPORT_ALTERNATIVE_FILENAMES : List String :=
  ["generated.jpg", "generated.jpeg", "slide.png", "slide.jpg", "output.png"]

def INSTRUCTIONS_FILENAME : String := "INSTRUCTIONS.md"

/-- A figure reference carried by a section (`FigureRef.figure_id`). -/
structure FigureRef where
  figure_id : String
deriving DecidableEq, Repr, Inhabited

/-- One content section of a plan (`content_planner.Section`), restricted to
the fields the orchestrator reads. -/
structure Section where
  id : String
  title : String
  section_type : String
  content : String
  figures : List FigureRef
deriving DecidableEq, Repr, Inhabited

/-- A content plan: output kind tag plus the ordered sections. -/
structure ContentPlan where
  output_type : String
  sections : List Section
deriving DecidableEq, Repr, Inhabited

/-- A loaded reference image dict as built by `_load_figure_images` and by
the style-anchor capture: `{figure_id, caption, base64, mime_type}`. -/
structure RefImage where
  figure_id : String
  caption : String
  base64 : String
  mime_type : String
deriving DecidableEq, Repr, Inhabited

/-- `GeneratedImage` dataclass: one generated artifact. -/
structure GeneratedImage where
  section_id : String
  image_data : String
  mime_type : String
deriving DecidableEq, Repr, Inhabited

/-- `ProcessedStyle` dataclass: the style resolver's output. -/
structure ProcessedStyle where
  style_name : String
  color_tone : String
  special_elements : String
  decorations : String
  valid : Bool
  error : Option String
deriving DecidableEq, Repr, Inhabited

/-- Base64 transport encoding, modelled as the identity on abstract byte
strings (the code only encodes on store and decodes on send). -/
def b64encode (s : String) : String := s

/-- The figure ids referenced by the given sections (`used_ids` set in
`_filter_images`, membership semantics). -/
def usedFigureIds (sections : List Section) : List String :=
  sections.flatMap fun s => s.figures.map fun r => r.figure_id

/-- `_filter_images`: keep exactly the loaded figure images whose id is
referenced by some section, in load order. -/
def filterImages (sections : List Section) (figure_images : List RefImage) :
    List RefImage :=
  figure_images.filter fun img => (usedFigureIds sections).contains img.figure_id

/-! ### Layout-rule tables and selection (`_generate_slides`) -/

/-- Modelled from the spec: the layout tables live in the prompts module,
which is not under `src/`; each named preset owns a full type-to-layout
mapping (including the `"content"` key), whose entries are abstract
layout-rule strings. -/
def SLIDE_LAYOUTS_ACADEMIC : List (String × String) :=
  [("title", "academic title layout"), ("content", "academic content layout"),
   ("section", "academic section layout"), ("conclusion", "academic conclusion layout")]

/-- Modelled from the spec: the themed preset's own full type-to-layout
mapping (the prompts module is not under `src/`). -/
def SLIDE_LAYOUTS_DORAEMON : List (String × String) :=
  [("title", "doraemon title layout"), ("content", "doraemon content layout"),
   ("section", "doraemon section layout"), ("conclusion", "doraemon conclusion layout")]

/-- Modelled from the spec: the default layout set used for custom styles
(the prompts module is not under `src/`). -/
def SLIDE_LAYOUTS_DEFAULT : List (String × String) :=
  [("title", "default title layout"), ("content", "default content layout"),
   ("section", "default section layout"), ("conclusion", "default conclusion layout")]

/-- Layout-table selection keyed by style name (`_generate_slides`,
lines 257-263). -/
def selectLayouts (style_name : String) : List (String × String) :=
  if style_name == "custom" then SLIDE_LAYOUTS_DEFAULT
  else if style_name == "doraemon" then SLIDE_LAYOUTS_DORAEMON
  else SLIDE_LAYOUTS_ACADEMIC

/-- `layouts.get(section.section_type, layouts["content"])`: the layout rule
for a section type, falling back to the `"content"` rule. -/
def layoutRule (layouts : List (String × String)) (section_type : String) : String :=
  match layouts.lookup section_type with
  | some rule => rule
  | none => (layouts.lookup "content").getD ""

/-! ### `_call_model` retry logic -/

/-- One backend response as classified by `_call_model`'s checks: a null
response, a response with no choices list, a response whose message carries
no usable image payload, an exception raised by the call, or a successful
data URL decoded to `(bytes, mime)`. -/
inductive ApiResponse where
  | null
  | noChoices
  | noImage
  | exn (msg : String)
  | ok (data : String) (mime : String)
deriving DecidableEq, Repr

/-- The three malformed-response kinds that `_call_model` retries on. -/
def malformed : ApiResponse → Bool
  | .null => true
  | .noChoices => true
  | .noImage => true
  | _ => false

/-- The error message `_call_model` raises for each failing response kind. -/
def respError : ApiResponse → String
  | .null => "API returned None response - possible rate limit or API error"
  | .noChoices => "API response has no choices"
  | .noImage => "Image generation failed - no images in response"
  | .exn m => m
  | .ok _ _ => ""

def max_retries : Nat := 3

def retry_delay : Nat := 2

/-- Outcome of one `_call_model` invocation: the returned value or raised
error, the number of attempts made, and the backoff sleeps performed
between attempts (in seconds, in order). -/
structure CallOutcome where
  result : Except String (String × String)
  attempts : Nat
  sleeps : List Nat
deriving Repr

/-- The retry loop of `_call_model` from a given attempt index; `fuel` is the
number of loop iterations remaining (`max_retries - attempt`).  On a
malformed response or exception: if this is not the last attempt, sleep
`retry_delay * (attempt + 1)` and continue, else raise.  The fuel-exhausted
case is the unreachable final `raise` after the loop. -/
def callModelFrom (responses : Nat → ApiResponse) (attempt : Nat) :
    Nat → CallOutcome
  | 0 => ⟨.error "Image generation failed after all retry attempts", 0, []⟩
  | fuel + 1 =>
    match responses attempt with
    | .ok data mime => ⟨.ok (data, mime), 1, []⟩
    | r =>
      if attempt < max_retries - 1 then
        let rest := callModelFrom responses (attempt + 1) fuel
        ⟨rest.result, rest.attempts + 1, retry_delay * (attempt + 1) :: rest.sleeps⟩
      else ⟨.error (respError r), 1, []⟩

/-- `_call_model` (lines 838-892): up to `max_retries` attempts with linear
backoff, driven by the sequence of backend responses per attempt. -/
def callModel (responses : Nat → ApiResponse) : CallOutcome :=
  callModelFrom responses 0 max_retries

/-! ### API slide mode (`_generate_slides_api_mode`) -/

/-- The fixed style-preservation caption attached to the anchor image. -/
def STYLE_REF_CAPTION : String :=
  "STRICTLY MAINTAIN: same background color, same accent color, same font style, same chart/icon style. Keep visual consistency."

/-- The anchor `style_ref_image` dict built from slide index 1's output. -/
def mkStyleRef (image_data mime_type : String) : RefImage :=
  { figure_id := "Reference Slide", caption := STYLE_REF_CAPTION,
    base64 := b64encode image_data, mime_type := mime_type }

/-- `plan.sections[i]` (always in range in the code). -/
def sectionAt (plan : ContentPlan) (i : Nat) : Section :=
  plan.sections.getD i default

/-- State threaded through the sequential phase of API slide mode:
accumulated results, the mutable anchor cell, the dispatched jobs
`(slide index, attached reference images)` in dispatch order, and the
indices after whose completion the anchor cell was assigned. -/
structure SeqState where
  results : List GeneratedImage
  style_ref_image : Option RefImage
  jobs : List (Nat × List RefImage)
  anchorWrites : List Nat
deriving Repr

/-- The sequential loop of `_generate_slides_api_mode` (lines 341-377) over
the given slide indices.  For each index: build the reference list (anchor
first if set, then the section's content figures), call the backend; on
failure stop with the error, on success record the result and, when the
index is 1, write the anchor cell. -/
def seqPhase (plan : ContentPlan) (figure_images : List RefImage)
    (oracle : Nat → Option (String × String)) :
    List Nat → SeqState → SeqState × Option String
  | [], st => (st, none)
  | i :: rest, st =>
    let s := sectionAt plan i
    let section_images := filterImages [s] figure_images
    let reference_images :=
      (match st.style_ref_image with
       | some r => [r]
       | none => []) ++ section_images
    let st1 := { st with jobs := st.jobs ++ [(i, reference_images)] }
    match oracle i with
    | none => (st1, some "Image generation failed after all retry attempts")
    | some (image_data, mime_type) =>
      let st2 : SeqState :=
        { results := st1.results ++ [⟨s.id, image_data, mime_type⟩],
          style_ref_image :=
            if i == 1 then some (mkStyleRef image_data mime_type)
            else st1.style_ref_image,
          jobs := st1.jobs,
          anchorWrites :=
            if i == 1 then st1.anchorWrites ++ [i] else st1.anchorWrites }
      seqPhase plan figure_images oracle rest st2

/-- `generate_single`'s job construction for a parallel slide (lines
383-399): the anchor (if set) prepended, then the section's content
figures. -/
def parallelJob (plan : ContentPlan) (figure_images : List RefImage)
    (style_ref_image : Option RefImage) (i : Nat) : Nat × List RefImage :=
  let s := sectionAt plan i
  let section_images := filterImages [s] figure_images
  let reference_images :=
    (match style_ref_image with
     | some r => [r]
     | none => []) ++ section_images
  (i, reference_images)

/-- The eventual result of `generate_single` for slide `i`: `none` when its
`_call_model` raised after exhausting retries. -/
def parallelResult (plan : ContentPlan) (oracle : Nat → Option (String × String))
    (i : Nat) : Option GeneratedImage :=
  (oracle i).map fun r => ⟨(sectionAt plan i).id, r.1, r.2⟩

/-- The `as_completed` loop (lines 409-415): consume futures in completion
order, recording each result in `results_dict` keyed by slide index; a
failed future re-raises out of the loop, aborting the batch. -/
def collectResults (plan : ContentPlan) (oracle : Nat → Option (String × String)) :
    List Nat → List (Nat × GeneratedImage) →
    Except String (List (Nat × GeneratedImage))
  | [], dict => .ok dict
  | i :: rest, dict =>
    match parallelResult plan oracle i with
    | none => .error "Image generation failed after all retry attempts"
    | some g => collectResults plan oracle rest (dict ++ [(i, g)])

/-- The merge loop (lines 418-419): read `results_dict` back in original
index order; a missing key is a `KeyError`. -/
def mergeResults (dict : List (Nat × GeneratedImage)) :
    List Nat → Except String (List GeneratedImage)
  | [] => .ok []
  | i :: rest =>
    match dict.lookup i with
    | none => .error "KeyError"
    | some g =>
      match mergeResults dict rest with
      | .error e => .error e
      | .ok gs => .ok (g :: gs)

/-- Outcome of `_generate_slides_api_mode`: the returned list (or the raised
error), the dispatched jobs `(slide index, attached references)` in dispatch
order, and the anchor-cell write log. -/
structure ApiModeOutcome where
  outcome : Except String (List GeneratedImage)
  jobs : List (Nat × List RefImage)
  anchorWrites : List Nat
deriving Repr

/-- `_generate_slides_api_mode` (lines 324-421): first two slides strictly
sequential (slide 1's output captured as the anchor), remaining slides
submitted to the pool and consumed in completion `order`, then re-sorted
into original index order. -/
def generateSlidesApiMode (plan : ContentPlan) (figure_images : List RefImage)
    (oracle : Nat → Option (String × String)) (order : List Nat) :
    ApiModeOutcome :=
  let total := plan.sections.length
  let init : SeqState := ⟨[], none, [], []⟩
  let seq := seqPhase plan figure_images oracle (List.range (min 2 total)) init
  let st := seq.1
  match seq.2 with
  | some msg => ⟨.error msg, st.jobs, st.anchorWrites⟩
  | none =>
    if 2 < total then
      let pjobs := (List.range' 2 (total - 2)).map
        (parallelJob plan figure_images st.style_ref_image)
      let jobs := st.jobs ++ pjobs
      match collectResults plan oracle order [] with
      | .error msg => ⟨.error msg, jobs, st.anchorWrites⟩
      | .ok dict =>
        match mergeResults dict (List.range' 2 (total - 2)) with
        | .error msg => ⟨.error msg, jobs, st.anchorWrites⟩
        | .ok merged => ⟨.ok (st.results ++ merged), jobs, st.anchorWrites⟩
    else ⟨.ok st.results, st.jobs, st.anchorWrites⟩

/-! ### Prompt export mode and the import bridge -/

/-- Filename sanitization in `_save_reference_images`: keep alphanumerics,
dash and underscore, replace everything else by an underscore. -/
def sanitizeName (s : String) : String :=
  s.map fun c => if c.isAlphanum || c == '-' || c == '_' then c else '_'

/-- Two-digit number formatting (`{:02d}`). -/
def pad2 (n : Nat) : String :=
  if n < 10 then "0" ++ toString n else toString n

/-- Substring test used for `"png" in mime_type`. -/
def containsPng (mime : String) : Bool := (mime.splitOn "png").length != 1

/-- `slide_{:02d}_images` directory name. -/
def slideDirName (n : Nat) : String := "slide_" ++ pad2 n ++ "_images"

/-- `slide_{:02d}_prompt.txt` file name. -/
def slidePromptName (n : Nat) : String := "slide_" ++ pad2 n ++ "_prompt.txt"

/-- The reference-image filenames written by `_save_reference_images`:
images with an empty payload are skipped, the rest saved as
`ref_{i:02d}_{sanitized id}{ext}` with `i` the original enumeration
index. -/
def savedRefFilenames (reference_images : List RefImage) : List String :=
  (reference_images.enum.filter fun p => p.2.base64 != "").map fun p =>
    "ref_" ++ pad2 p.1 ++ "_" ++ sanitizeName p.2.figure_id ++
      (if containsPng p.2.mime_type then ".png" else ".jpg")

/-- One human-populated slide directory, as seen by the import bridge:
its parsed slide number and the filenames it contains. -/
structure SlideDir where
  num : Nat
  files : List String
deriving DecidableEq, Repr

/-- The placeholder image returned by `_export_prompt`
(`_create_placeholder_image`); the PNG canvas rendering is abstracted to a
tagged byte string. -/
def placeholderImage (slide_num : Nat) (title : String) : String × String :=
  ("placeholder slide " ++ toString slide_num ++ " " ++ title, "image/png")

/-- Effect trace event of one `generate` run: a style-resolution LLM call, an
image-generation backend call for a slide index, or a file write. -/
inductive Event where
  | styleCall
  | genCall (idx : Nat)
  | fileWrite (name : String)
deriving DecidableEq, Repr

/-- Outcome of export (prompt) mode: the placeholder results, the slide
directories written to the prompts area, and the file-write events in
order. -/
structure ExportOutcome where
  results : List GeneratedImage
  dirs : List SlideDir
  writes : List Event
deriving Repr

/-- `_export_prompt` for section index `i` (slide number `i + 1`): saves the
section's reference images and the prompt file into the slide directory and
returns the placeholder image. -/
def exportSlide (plan : ContentPlan) (figure_images : List RefImage) (i : Nat) :
    GeneratedImage × SlideDir × List Event :=
  let s := sectionAt plan i
  let section_images := filterImages [s] figure_images
  let slide_num := i + 1
  let refs := savedRefFilenames section_images
  let p := placeholderImage slide_num s.title
  (⟨s.id, p.1, p.2⟩,
   ⟨slide_num, refs⟩,
   (refs.map fun f => Event.fileWrite (slideDirName slide_num ++ "/" ++ f)) ++
     [Event.fileWrite (slidePromptName slide_num)])

/-- `_generate_slides_prompt_mode` (lines 274-322) with the prompts output
directory configured: export every slide in order, then write
`INSTRUCTIONS.md`. -/
def exportSlides (plan : ContentPlan) (figure_images : List RefImage) :
    ExportOutcome :=
  let steps := (List.range plan.sections.length).map (exportSlide plan figure_images)
  { results := steps.map fun t => t.1,
    dirs := steps.map fun t => t.2.1,
    writes := (steps.flatMap fun t => t.2.2) ++ [.fileWrite INSTRUCTIONS_FILENAME] }

/-- Simulate the human operator filling in each exported slide directory
with a generated image under the canonical filename. -/
def fillGenerated (dirs : List SlideDir) : List SlideDir :=
  dirs.map fun d => ⟨d.num, d.files ++ [GENERATED_IMAGE_FILENAME]⟩

/-- The per-directory file lookup of `import_generated_images` (lines
1089-1097): the canonical filename first, then each alternate in the fixed
listed order. -/
def findGenerated (files : List String) : Option String :=
  if files.contains GENERATED_IMAGE_FILENAME then some GENERATED_IMAGE_FILENAME
  else IMPORT_ALTERNATIVE_FILENAMES.find? fun alt => files.contains alt

/-- The import scan loop (lines 1084-1119): for each slide directory in scan
order, either import its generated image or record its slide number as
missing and continue. -/
def importScan : List SlideDir → List (Nat × String) × List Nat
  | [] => ([], [])
  | d :: rest =>
    match findGenerated d.files with
    | some f =>
      let r := importScan rest
      ((d.num, f) :: r.1, r.2)
    | none =>
      let r := importScan rest
      (r.1, d.num :: r.2)

/-- `import_generated_images` (lines 980-1132), with the speaker-notes
sidecar (which only affects the notes attached to the written deck, not the
imported set or the missing list) omitted: raises when there are no slide
directories at all, scans each directory tolerating missing files, raises
when zero slides were imported, and otherwise returns the imported
`(slide number, filename)` pairs in scan order plus the missing slide
numbers. -/
def importGeneratedImages (dirs : List SlideDir) :
    Except String (List (Nat × String) × List Nat) :=
  if dirs.isEmpty then .error "No slide directories found"
  else
    let r := importScan dirs
    if r.1.isEmpty then .error "No generated images found"
    else .ok r

/-! ### `generate` (batch entry point) -/

/-- The generator configuration visible to `generate`: the style name, the
optional free-form custom style, the generator mode (`"api"` or
`"prompt"`), and whether an LLM client for style processing is configured
(`RAG_LLM_API_KEY`). -/
structure GenerationConfig where
  style : String
  custom_style : Option String
  mode : String
  hasLlmClient : Bool
deriving Repr

/-- The custom-style processing step at the top of `generate` (lines
207-219): only runs when the style is `"custom"` and a custom style string
was given; requires some LLM-capable client (the dedicated LLM client, or
the image client which exists in API mode); an invalid resolution raises
for the whole batch. -/
def styleStep (cfg : GenerationConfig) (resolver : String → ProcessedStyle) :
    Except String (Option ProcessedStyle) × List Event :=
  match cfg.custom_style with
  | none => (.ok none, [])
  | some cs =>
    if cfg.style == "custom" then
      if cfg.hasLlmClient || cfg.mode == "api" then
        let ps := resolver cs
        if ps.valid then (.ok (some ps), [.styleCall])
        else (.error ("Invalid custom style: " ++ ps.error.getD "None"), [.styleCall])
      else
        (.error "Custom style requires an LLM client. Set RAG_LLM_API_KEY environment variable for prompt export mode.", [])
    else (.ok none, [])

/-- `ImageGenerator.generate` (lines 184-236): custom-style processing
first, then the poster/slides and api/prompt dispatch.  Returns the batch
outcome and the effect trace. -/
def generate (plan : ContentPlan) (cfg : GenerationConfig)
    (resolver : String → ProcessedStyle) (figure_images : List RefImage)
    (oracle : Nat → Option (String × String)) (order : List Nat) :
    Except String (List GeneratedImage) × List Event :=
  match styleStep cfg resolver with
  | (.error msg, evs) => (.error msg, evs)
  | (.ok _processed, evs) =>
    if plan.output_type == "poster" then
      if cfg.mode == "prompt" then
        (.error "Prompt export mode only supports slides output. Use --output slides with --export-prompts.", evs)
      else
        match oracle 0 with
        | some r => (.ok [⟨"poster", r.1, r.2⟩], evs ++ [.genCall 0])
        | none =>
          (.error "Image generation failed after all retry attempts", evs ++ [.genCall 0])
    else
      if cfg.mode == "prompt" then
        let ex := exportSlides plan figure_images
        (.ok ex.results, evs ++ ex.writes)
      else
        let res := generateSlidesApiMode plan figure_images oracle order
        (res.outcome, evs ++ res.jobs.map fun j => .genCall j.1)

/-- Events that constitute generation work or durable output: an
image-generation backend call or a file write. -/
def isWorkEvent : Event → Bool
  | .genCall _ => true
  | .fileWrite _ => true
  | .styleCall => false

/-! ### Concrete example inputs used by witnesses -/

/-- A section with the given id, referencing the given figure ids. -/
def mkSec (i : String) (figs : List String) : Section :=
  ⟨i, "title " ++ i, "content", "body " ++ i, figs.map FigureRef.mk⟩

def exPlan3 : ContentPlan := ⟨"slides", [mkSec "a" [], mkSec "b" [], mkSec "c" []]⟩

def exPlan4 : ContentPlan :=
  ⟨"slides", [mkSec "a" [], mkSec "b" [], mkSec "c" [], mkSec "d" []]⟩

def exPosterPlan : ContentPlan := ⟨"poster", [mkSec "a" []]⟩

def exF (i : Nat) : String × String := ("img" ++ toString i, "image/png")

/-- Backend oracle whose call for slide index 2 exhausts its retries. -/
def exOracleFail2 (i : Nat) : Option (String × String) :=
  if i == 2 then none else some (exF i)

def exCfgApi : GenerationConfig := ⟨"academic", none, "api", false⟩

def exCfgPosterPrompt : GenerationConfig := ⟨"academic", none, "prompt", false⟩

def exCfgCustom : GenerationConfig := ⟨"custom", some "vaporwave", "api", true⟩

def exResolver (_s : String) : ProcessedStyle :=
  ⟨"", "", "", "", false, some "style description too vague"⟩

def exDirs5 : List SlideDir :=
  [⟨1, [GENERATED_IMAGE_FILENAME]⟩, ⟨2, [GENERATED_IMAGE_FILENAME]⟩, ⟨3, []⟩,
   ⟨4, [GENERATED_IMAGE_FILENAME]⟩, ⟨5, [GENERATED_IMAGE_FILENAME]⟩]

def exFigs : List RefImage :=
  [⟨"fig1", "c1", "d1", "image/png"⟩, ⟨"fig2", "c2", "d2", "image/png"⟩,
   ⟨"fig3", "c3", "d3", "image/jpeg"⟩]

def exSectionsC10 : List Section := [mkSec "a" ["fig3", "fig1"], mkSec "b" ["fig1"]]

/-- The output list of a fully successful API slide run, described by
index: the i-th element carries the i-th section's id and the backend's
result for slide index i. -/
def slideImages (plan : ContentPlan) (f : Nat → String × String) :
    List GeneratedImage :=
  (List.range plan.sections.length).map fun i =>
    ⟨(sectionAt plan i).id, (f i).1, (f i).2⟩

/-! ## Helper lemmas -/

theorem find?_eq_head?_filter (p : α → Bool) (l : List α) :
    l.find? p = (l.filter p).head? := by
  induction l with
  | nil => rfl
  | cons a l ih =>
    by_cases h : p a
    · rw [List.find?_cons_of_pos _ h, List.filter_cons_of_pos h]
      rfl
    · rw [List.find?_cons_of_neg _ h, List.filter_cons_of_neg h, ih]

theorem range_map_getD (l : List α) (d : α) (g : α → β) :
    (List.range l.length).map (fun i => g (l.getD i d)) = l.map g := by
  apply List.ext_getElem
  · simp
  · intro i h1 h2
    simp only [List.getElem_map, List.getElem_range]
    rw [List.getD_eq_getElem l d (by simpa using h2)]

theorem mem_usedFigureIds (sections : List Section) (x : String) :
    (usedFigureIds sections).contains x = true ↔
      ∃ s ∈ sections, ∃ r ∈ s.figures, r.figure_id = x := by
  simp [usedFigureIds, List.mem_flatMap, eq_comm]

/-! ## C10: `_filter_images` -/

/-- C10: `_filter_images` returns exactly the entries of the loaded figure
list whose `figure_id` is referenced by at least one figure reference of
the given sections, in the loaded list's order (it is a sublist of the
loaded list), and when the loaded list has pairwise distinct ids each
figure appears at most once however many references point at it. -/
theorem filter_images_referenced_in_load_order
    (sections : List Section) (figure_images : List RefImage) :
    filterImages sections figure_images =
      figure_images.filter (fun img =>
        decide (∃ s ∈ sections, ∃ r ∈ s.figures, r.figure_id = img.figure_id)) ∧
    List.Sublist (filterImages sections figure_images) figure_images ∧
    (figure_images.Pairwise (fun a b => a.figure_id ≠ b.figure_id) →
      (filterImages sections figure_images).Pairwise
        (fun a b => a.figure_id ≠ b.figure_id)) := by
  refine ⟨?_, ?_, ?_⟩
  · unfold filterImages
    apply List.filter_congr
    intro img _
    rw [Bool.eq_iff_iff, mem_usedFigureIds, decide_eq_true_iff]
  · exact List.filter_sublist _
  · intro h
    exact h.sublist (List.filter_sublist _)

/-- Witness for C10 at a concrete plan and loaded figure list. -/
theorem filter_images_referenced_witness :
    (filterImages exSectionsC10 exFigs).Pairwise
      (fun a b => a.figure_id ≠ b.figure_id) :=
  (filter_images_referenced_in_load_order exSectionsC10 exFigs).2.2 (by decide)

/-! ## C9: layout-rule selection -/

/-- C9: the layout table is selected by style name (`"custom"` always the
default set, `"academic"` and `"doraemon"` their own mappings), and within
the selected table the rule is keyed by the section's type tag, falling
back to the `"content"` rule when the type tag is unrecognized. -/
theorem layout_selection_and_fallback (style_name section_type : String) :
    selectLayouts "custom" = SLIDE_LAYOUTS_DEFAULT ∧
    selectLayouts "doraemon" = SLIDE_LAYOUTS_DORAEMON ∧
    selectLayouts "academic" = SLIDE_LAYOUTS_ACADEMIC ∧
    (∀ rule, (selectLayouts style_name).lookup section_type = some rule →
      layoutRule (selectLayouts style_name) section_type = rule) ∧
    ((selectLayouts style_name).lookup section_type = none →
      layoutRule (selectLayouts style_name) section_type =
        layoutRule (selectLayouts style_name) "content") := by
  refine ⟨rfl, rfl, rfl, ?_, ?_⟩
  · intro rule h
    unfold layoutRule
    rw [h]
  · intro h
    unfold layoutRule
    rw [h]
    unfold selectLayouts
    split_ifs <;> rfl

/-- Witness for C9: an unrecognized type tag in the themed preset falls
back to that preset's `"content"` rule. -/
theorem layout_selection_witness :
    layoutRule (selectLayouts "doraemon") "epilogue" =
      layoutRule (selectLayouts "doraemon") "content" :=
  (layout_selection_and_fallback "doraemon" "epilogue").2.2.2.2 rfl

/-! ## C4: `_call_model` retry behavior -/

theorem callModelFrom_malformed (responses : Nat → ApiResponse)
    (attempt fuel : Nat) (h : malformed (responses attempt) = true) :
    callModelFrom responses attempt (fuel + 1) =
      if attempt < max_retries - 1 then
        ⟨(callModelFrom responses (attempt + 1) fuel).result,
         (callModelFrom responses (attempt + 1) fuel).attempts + 1,
         retry_delay * (attempt + 1) ::
           (callModelFrom responses (attempt + 1) fuel).sleeps⟩
      else ⟨.error (respError (responses attempt)), 1, []⟩ := by
  cases hr : responses attempt <;>
    simp [malformed, hr] at h ⊢ <;>
    simp [callModelFrom, hr]

theorem callModelFrom_attempts_le (responses : Nat → ApiResponse) :
    ∀ fuel attempt, (callModelFrom responses attempt fuel).attempts ≤ fuel := by
  intro fuel
  induction fuel with
  | zero => intro attempt; simp [callModelFrom]
  | succ n ih =>
    intro attempt
    cases hr : responses attempt <;> simp [callModelFrom, hr] <;>
      split_ifs <;> simp <;> exact ih (attempt + 1)

/-- C4: `_call_model` makes at most 3 attempts; a malformed response of any
of the three retryable kinds on every attempt ends in a terminal error
after exactly 3 attempts with backoff sleeps of `delay * 1` then
`delay * 2` between attempts; two malformed responses followed by a
success return that success's decoded bytes and mime type after the same
3 attempts, the earlier failures invisible in the result. -/
theorem call_model_retry_behavior (responses : Nat → ApiResponse) :
    (callModel responses).attempts ≤ max_retries ∧
    (malformed (responses 0) = true → malformed (responses 1) = true →
      malformed (responses 2) = true →
      callModel responses =
        ⟨.error (respError (responses 2)), 3,
         [retry_delay * 1, retry_delay * 2]⟩) ∧
    (∀ d m, malformed (responses 0) = true → malformed (responses 1) = true →
      responses 2 = .ok d m →
      callModel responses =
        ⟨.ok (d, m), 3, [retry_delay * 1, retry_delay * 2]⟩) := by
  refine ⟨callModelFrom_attempts_le responses max_retries 0, ?_, ?_⟩
  · intro h0 h1 h2
    unfold callModel max_retries
    rw [show (3 : Nat) = 2 + 1 from rfl, callModelFrom_malformed responses 0 2 h0]
    rw [show (2 : Nat) = 1 + 1 from rfl, callModelFrom_malformed responses 1 1 h1]
    rw [show (1 : Nat) = 0 + 1 from rfl, callModelFrom_malformed responses 2 0 h2]
    simp [max_retries]
  · intro d m h0 h1 h2
    unfold callModel max_retries
    rw [show (3 : Nat) = 2 + 1 from rfl, callModelFrom_malformed responses 0 2 h0]
    rw [show (2 : Nat) = 1 + 1 from rfl, callModelFrom_malformed responses 1 1 h1]
    simp [callModelFrom, h2, max_retries]

/-- Witness for C4: three consecutive null responses raise the terminal
error after 3 attempts with sleeps of 2 then 4 seconds. -/
theorem call_model_retry_witness :
    callModel (fun _ => ApiResponse.null) =
      ⟨.error (respError ApiResponse.null), 3,
       [retry_delay * 1, retry_delay * 2]⟩ :=
  (call_model_retry_behavior (fun _ => ApiResponse.null)).2.1 rfl rfl rfl

/-! ## C5 and C6: fail-fast configuration errors in `generate` -/

theorem styleStep_events (cfg : GenerationConfig)
    (resolver : String → ProcessedStyle) :
    (styleStep cfg resolver).2 = [] ∨ (styleStep cfg resolver).2 = [.styleCall] := by
  unfold styleStep
  cases cfg.custom_style
  · simp
  · split_ifs <;> simp
    all_goals (split_ifs <;> simp)

theorem styleStep_events_no_work (cfg : GenerationConfig)
    (resolver : String → ProcessedStyle) :
    (styleStep cfg resolver).2.filter isWorkEvent = [] := by
  rcases styleStep_events cfg resolver with h | h <;> rw [h] <;> rfl

/-- C5: with the generator in export (prompt) mode, `generate` on a poster
plan returns an error, and its effect trace contains no generation call and
no file write. -/
theorem poster_export_fails_fast (plan : ContentPlan) (cfg : GenerationConfig)
    (resolver : String → ProcessedStyle) (figure_images : List RefImage)
    (oracle : Nat → Option (String × String)) (order : List Nat)
    (hp : plan.output_type = "poster") (hm : cfg.mode = "prompt") :
    (generate plan cfg resolver figure_images oracle order).1.isOk = false ∧
    (generate plan cfg resolver figure_images oracle order).2.filter isWorkEvent
      = [] := by
  have hev := styleStep_events_no_work cfg resolver
  rcases hss : styleStep cfg resolver with ⟨sr, evs⟩
  rw [hss] at hev
  unfold generate
  rw [hss]
  cases sr with
  | error msg => exact ⟨rfl, hev⟩
  | ok ps =>
    rw [hp, hm]
    exact ⟨rfl, hev⟩

/-- Witness for C5 at a concrete poster plan and prompt-mode config. -/
theorem poster_export_fails_fast_witness :
    (generate exPosterPlan exCfgPosterPrompt exResolver [] (fun i => some (exF i))
        []).1.isOk = false ∧
    (generate exPosterPlan exCfgPosterPrompt exResolver [] (fun i => some (exF i))
        []).2.filter isWorkEvent = [] :=
  poster_export_fails_fast exPosterPlan exCfgPosterPrompt exResolver []
    (fun i => some (exF i)) [] rfl rfl

/-- C6: a custom style whose resolution comes back with `valid = false`
makes `generate` raise for the whole batch, with no generation call
dispatched and no export file written. -/
theorem invalid_custom_style_fails_batch (plan : ContentPlan)
    (cfg : GenerationConfig) (resolver : String → ProcessedStyle)
    (figure_images : List RefImage) (oracle : Nat → Option (String × String))
    (order : List Nat) (cs : String)
    (hstyle : cfg.style = "custom") (hcs : cfg.custom_style = some cs)
    (hclient : (cfg.hasLlmClient || cfg.mode == "api") = true)
    (hinvalid : (resolver cs).valid = false) :
    (generate plan cfg resolver figure_images oracle order).1 =
      .error ("Invalid custom style: " ++ (resolver cs).error.getD "None") ∧
    (generate plan cfg resolver figure_images oracle order).2.filter isWorkEvent
      = [] := by
  have hss : styleStep cfg resolver =
      (.error ("Invalid custom style: " ++ (resolver cs).error.getD "None"),
       [.styleCall]) := by
    unfold styleStep
    rw [hcs, hstyle]
    simp [hclient, hinvalid]
  unfold generate
  rw [hss]
  exact ⟨rfl, rfl⟩

/-- Witness for C6: a concrete custom-style batch whose resolver returns
`valid = false` fails with the invalid-style error and an empty work
trace. -/
theorem invalid_custom_style_witness :
    (generate exPlan3 exCfgCustom exResolver [] (fun i => some (exF i)) [2]).1 =
      .error ("Invalid custom style: " ++
        (exResolver "vaporwave").error.getD "None") ∧
    (generate exPlan3 exCfgCustom exResolver [] (fun i => some (exF i))
        [2]).2.filter isWorkEvent = [] :=
  invalid_custom_style_fails_batch exPlan3 exCfgCustom exResolver []
    (fun i => some (exF i)) [2] "vaporwave" rfl rfl rfl rfl

/-! ## Evaluation of a fully successful API slide run (for C1 and C2) -/

theorem seqPhase_two (plan : ContentPlan) (figure_images : List RefImage)
    (f : Nat → String × String) :
    seqPhase plan figure_images (fun i => some (f i)) [0, 1] ⟨[], none, [], []⟩ =
      (⟨[⟨(sectionAt plan 0).id, (f 0).1, (f 0).2⟩,
         ⟨(sectionAt plan 1).id, (f 1).1, (f 1).2⟩],
        some (mkStyleRef (f 1).1 (f 1).2),
        [(0, filterImages [sectionAt plan 0] figure_images),
         (1, filterImages [sectionAt plan 1] figure_images)],
        [1]⟩, none) := by
  rcases h0 : f 0 with ⟨d0, m0⟩
  rcases h1 : f 1 with ⟨d1, m1⟩
  simp [seqPhase, h0, h1]

theorem collectResults_ok (plan : ContentPlan) (f : Nat → String × String)
    (order : List Nat) (dict : List (Nat × GeneratedImage)) :
    collectResults plan (fun i => some (f i)) order dict =
      .ok (dict ++ order.map fun i =>
        (i, ⟨(sectionAt plan i).id, (f i).1, (f i).2⟩)) := by
  induction order generalizing dict with
  | nil => simp [collectResults]
  | cons i rest ih =>
    rcases hi : f i with ⟨d, m⟩
    simp [collectResults, parallelResult, hi, ih]

theorem lookup_map_pair (g : Nat → GeneratedImage) (order : List Nat) (i : Nat)
    (h : i ∈ order) :
    (order.map fun j => (j, g j)).lookup i = some (g i) := by
  induction order with
  | nil => cases h
  | cons j rest ih =>
    rcases List.mem_cons.mp h with rfl | h2
    · simp
    · by_cases hij : i = j
      · subst hij; simp
      · have hb : (i == j) = false := by simpa using hij
        simpa [List.lookup_cons, hb] using ih h2

theorem mergeResults_eval (g : Nat → GeneratedImage)
    (dict : List (Nat × GeneratedImage)) (l : List Nat)
    (h : ∀ i ∈ l, dict.lookup i = some (g i)) :
    mergeResults dict l = .ok (l.map g) := by
  induction l with
  | nil => simp [mergeResults]
  | cons i rest ih =>
    have h1 := h i (List.mem_cons_self i rest)
    have h2 : ∀ j ∈ rest, dict.lookup j = some (g j) :=
      fun j hj => h j (List.mem_cons_of_mem _ hj)
    simp [mergeResults, h1, ih h2]

theorem range_split_two (n : Nat) (hn : 2 ≤ n) :
    List.range n = [0, 1] ++ List.range' 2 (n - 2) := by
  rw [List.range_eq_range']
  rw [show ([0, 1] : List Nat) = List.range' 0 2 from rfl]
  rw [show (2 : Nat) = 0 + 2 from rfl, List.range'_append_1]
  congr 1
  omega

/-- Full evaluation of `_generate_slides_api_mode` when every backend call
succeeds (`oracle i = some (f i)`) and the completion order covers every
parallel index: the returned list is the per-index images in section
order, the dispatched jobs attach the anchor exactly for indices at least
2, and the anchor cell is written exactly once, after index 1. -/
theorem apiMode_eval (plan : ContentPlan) (figure_images : List RefImage)
    (f : Nat → String × String) (order : List Nat)
    (hn : 3 ≤ plan.sections.length)
    (hord : ∀ i ∈ List.range' 2 (plan.sections.length - 2), i ∈ order) :
    generateSlidesApiMode plan figure_images (fun i => some (f i)) order =
      ⟨.ok (slideImages plan f),
       (List.range plan.sections.length).map (fun i =>
         (i, (if 2 ≤ i then [mkStyleRef (f 1).1 (f 1).2] else []) ++
           filterImages [sectionAt plan i] figure_images)),
       [1]⟩ := by
  have hmin : min 2 plan.sections.length = 2 := by omega
  have h2 : (2 : Nat) < plan.sections.length := by omega
  have hsplit := range_split_two plan.sections.length (by omega)
  have hcoll := collectResults_ok plan f order []
  rw [List.nil_append] at hcoll
  have hmerge := mergeResults_eval
    (fun i => (⟨(sectionAt plan i).id, (f i).1, (f i).2⟩ : GeneratedImage))
    (order.map fun j =>
      (j, (⟨(sectionAt plan j).id, (f j).1, (f j).2⟩ : GeneratedImage)))
    (List.range' 2 (plan.sections.length - 2))
    (fun i hi => lookup_map_pair _ order i (hord i hi))
  have hres : ([⟨(sectionAt plan 0).id, (f 0).1, (f 0).2⟩,
      ⟨(sectionAt plan 1).id, (f 1).1, (f 1).2⟩] : List GeneratedImage) ++
      (List.range' 2 (plan.sections.length - 2)).map
        (fun i => ⟨(sectionAt plan i).id, (f i).1, (f i).2⟩) =
      slideImages plan f := by
    unfold slideImages
    rw [hsplit]
    simp
  have hjobs : ([(0, filterImages [sectionAt plan 0] figure_images),
      (1, filterImages [sectionAt plan 1] figure_images)] :
        List (Nat × List RefImage)) ++
      (List.range' 2 (plan.sections.length - 2)).map
        (parallelJob plan figure_images (some (mkStyleRef (f 1).1 (f 1).2))) =
      (List.range plan.sections.length).map (fun i =>
        (i, (if 2 ≤ i then [mkStyleRef (f 1).1 (f 1).2] else []) ++
          filterImages [sectionAt plan i] figure_images)) := by
    rw [hsplit, List.map_append]
    refine congrArg₂ _ ?_ ?_
    · simp
    · apply List.map_congr_left
      intro i hi
      have h2i : 2 ≤ i := by
        rw [List.mem_range'] at hi
        omega
      simp [parallelJob, if_pos h2i]
  simp only [generateSlidesApiMode]
  rw [hmin, show List.range 2 = [0, 1] from rfl, seqPhase_two]
  simp only [if_pos h2, hcoll, hmerge]
  rw [hres, hjobs]

/-! ## C1: final output order equals section order -/

/-- C1: for a slides plan with at least 3 sections generated in API mode
with every backend call succeeding, `generate` returns a list with exactly
one element per section whose i-th element carries the i-th section's id —
for every completion order of the parallel phase that covers the submitted
indices. -/
theorem generate_api_output_order (plan : ContentPlan) (cfg : GenerationConfig)
    (resolver : String → ProcessedStyle) (figure_images : List RefImage)
    (f : Nat → String × String) (order : List Nat) (ps : Option ProcessedStyle)
    (hout : plan.output_type = "slides") (hmode : cfg.mode = "api")
    (hstyle : (styleStep cfg resolver).1 = .ok ps)
    (hn : 3 ≤ plan.sections.length)
    (hord : ∀ i ∈ List.range' 2 (plan.sections.length - 2), i ∈ order) :
    (generate plan cfg resolver figure_images (fun i => some (f i)) order).1 =
      .ok (slideImages plan f) ∧
    (slideImages plan f).length = plan.sections.length ∧
    (slideImages plan f).map (fun g => g.section_id) =
      plan.sections.map (fun s => s.id) := by
  refine ⟨?_, ?_, ?_⟩
  · rcases hss : styleStep cfg resolver with ⟨sr, evs⟩
    rw [hss] at hstyle
    simp only at hstyle
    subst hstyle
    unfold generate
    rw [hss, hout, hmode]
    simp only [show (("slides" : String) == "poster") = false from rfl,
      show (("api" : String) == "prompt") = false from rfl,
      Bool.false_eq_true, if_false]
    rw [apiMode_eval plan figure_images f order hn hord]
  · simp [slideImages]
  · unfold slideImages
    rw [List.map_map]
    exact range_map_getD plan.sections default (fun s => s.id)

/-- Witness for C1 at a concrete 3-section plan and a completion order in
which the only parallel slide is listed. -/
theorem generate_api_output_order_witness :
    (generate exPlan3 exCfgApi exResolver [] (fun i => some (exF i)) [2]).1 =
      .ok (slideImages exPlan3 exF) ∧
    (slideImages exPlan3 exF).length = exPlan3.sections.length ∧
    (slideImages exPlan3 exF).map (fun g => g.section_id) =
      exPlan3.sections.map (fun s => s.id) :=
  generate_api_output_order exPlan3 exCfgApi exResolver [] exF [2] none
    rfl rfl rfl (by decide) (by decide)

/-! ## C2: reference chain and anchor-cell invariants -/

/-- Evaluation of a fully successful API slide run for a deck of any size:
the small decks (0, 1 or 2 sections) never enter the parallel phase, and
the anchor cell is written exactly when slide index 1 exists. -/
theorem apiMode_eval_all (plan : ContentPlan) (figure_images : List RefImage)
    (f : Nat → String × String) (order : List Nat)
    (hord : ∀ i ∈ List.range' 2 (plan.sections.length - 2), i ∈ order) :
    generateSlidesApiMode plan figure_images (fun i => some (f i)) order =
      ⟨.ok (slideImages plan f),
       (List.range plan.sections.length).map (fun i =>
         (i, (if 2 ≤ i then [mkStyleRef (f 1).1 (f 1).2] else []) ++
           filterImages [sectionAt plan i] figure_images)),
       if 2 ≤ plan.sections.length then [1] else []⟩ := by
  rcases h0 : f 0 with ⟨d0, m0⟩
  rcases h1 : f 1 with ⟨d1, m1⟩
  rcases show plan.sections.length = 0 ∨ plan.sections.length = 1 ∨
      plan.sections.length = 2 ∨ 3 ≤ plan.sections.length by omega with h | h | h | h
  · simp [generateSlidesApiMode, seqPhase, slideImages, h]
  · simp [generateSlidesApiMode, seqPhase, slideImages, h, h0,
      show List.range 1 = [0] from rfl]
  · simp [generateSlidesApiMode, seqPhase, slideImages, h, h0, h1,
      show List.range 2 = [0, 1] from rfl]
  · rw [if_pos (by omega), h1.symm]
    exact apiMode_eval plan figure_images f order h hord

/-- C2: in a successful API slide run on any deck, the dispatched jobs
attach, for indices 0 and 1, exactly that section's content figures and no
anchor; for every index at least 2, the anchor image first and then that
section's content figures; the anchor is slide index 1's generated output
carrying the fixed style-preservation caption, and the anchor cell is
written exactly once, immediately after slide index 1 completes (and never
on decks with fewer than 2 slides). -/
theorem api_reference_chain (plan : ContentPlan) (figure_images : List RefImage)
    (f : Nat → String × String) (order : List Nat)
    (hord : ∀ i ∈ List.range' 2 (plan.sections.length - 2), i ∈ order) :
    (generateSlidesApiMode plan figure_images (fun i => some (f i)) order).jobs =
      (List.range plan.sections.length).map (fun i =>
        (i, (if 2 ≤ i then [mkStyleRef (f 1).1 (f 1).2] else []) ++
          filterImages [sectionAt plan i] figure_images)) ∧
    (generateSlidesApiMode plan figure_images (fun i => some (f i))
        order).anchorWrites =
      (if 2 ≤ plan.sections.length then [1] else []) ∧
    (mkStyleRef (f 1).1 (f 1).2).caption = STYLE_REF_CAPTION ∧
    (mkStyleRef (f 1).1 (f 1).2).base64 = b64encode (f 1).1 := by
  rw [apiMode_eval_all plan figure_images f order hord]
  exact ⟨rfl, rfl, rfl, rfl⟩

/-- Witness for C2 at a concrete 3-section plan with one content figure. -/
theorem api_reference_chain_witness :
    (generateSlidesApiMode exPlan3 exFigs (fun i => some (exF i)) [2]).jobs =
      (List.range exPlan3.sections.length).map (fun i =>
        (i, (if 2 ≤ i then [mkStyleRef (exF 1).1 (exF 1).2] else []) ++
          filterImages [sectionAt exPlan3 i] exFigs)) ∧
    (generateSlidesApiMode exPlan3 exFigs (fun i => some (exF i))
        [2]).anchorWrites = [1] ∧
    (mkStyleRef (exF 1).1 (exF 1).2).caption = STYLE_REF_CAPTION ∧
    (mkStyleRef (exF 1).1 (exF 1).2).base64 = b64encode (exF 1).1 :=
  api_reference_chain exPlan3 exFigs exF [2] (by decide)

/-! ## C3: a failed parallel job aborts the whole batch -/

/-- C3 (divergence witness): on a 4-section slides plan in API mode where
only the parallel job for slide index 2 exhausts its retries (its sibling,
index 3, completes first), `_generate_slides_api_mode` re-raises the error
out of the batch instead of surfacing the partial result with a list of
failed slide indices. -/
theorem parallel_failure_aborts_batch :
    (generateSlidesApiMode exPlan4 [] exOracleFail2 [3, 2]).outcome =
      .error "Image generation failed after all retry attempts" := by
  rfl

/-! ## C7: import tolerates missing slides, hard failure iff none imported -/

theorem importScan_eval (dirs : List SlideDir) :
    importScan dirs =
      (dirs.filterMap fun d => (findGenerated d.files).map fun fl => (d.num, fl),
       (dirs.filter fun d => (findGenerated d.files).isNone).map fun d => d.num) := by
  induction dirs with
  | nil => rfl
  | cons d rest ih =>
    cases h : findGenerated d.files <;>
      simp [importScan, h, ih, List.filterMap_cons, List.filter_cons]

/-- C7: the per-directory lookup tries the canonical filename first and
then the alternates in their fixed order; the import succeeds exactly when
some slide directory has a matching file, and on success returns the
imported `(slide number, filename)` pairs in scan order together with the
slide numbers of the directories with no matching file, which are skipped
rather than aborting the batch. -/
theorem import_missing_tolerated (dirs : List SlideDir) (files : List String) :
    (findGenerated files =
      if files.contains GENERATED_IMAGE_FILENAME then some GENERATED_IMAGE_FILENAME
      else (IMPORT_ALTERNATIVE_FILENAMES.filter fun alt => files.contains alt).head?) ∧
    ((importGeneratedImages dirs).isOk =
      dirs.any fun d => (findGenerated d.files).isSome) ∧
    ((dirs.any fun d => (findGenerated d.files).isSome) = true →
      importGeneratedImages dirs =
        .ok (dirs.filterMap fun d => (findGenerated d.files).map fun fl => (d.num, fl),
             (dirs.filter fun d => (findGenerated d.files).isNone).map
               fun d => d.num)) := by
  have hiff : ((dirs.filterMap fun d =>
      (findGenerated d.files).map fun fl => (d.num, fl)).isEmpty = true) ↔
      (dirs.any fun d => (findGenerated d.files).isSome) = false := by
    rw [List.isEmpty_iff, List.filterMap_eq_nil_iff]
    simp [Option.isSome_iff_ne_none]
  refine ⟨?_, ?_, ?_⟩
  · unfold findGenerated
    rw [find?_eq_head?_filter]
  · unfold importGeneratedImages
    rw [importScan_eval]
    cases dirs with
    | nil => rfl
    | cons d rest =>
      by_cases hany : ((d :: rest).any fun x => (findGenerated x.files).isSome) = true
      · have hne : (((d :: rest).filterMap fun x =>
            (findGenerated x.files).map fun fl => (x.num, fl)).isEmpty) = false := by
          rw [Bool.eq_false_iff]
          intro h
          rw [hiff.mp h] at hany
          exact Bool.noConfusion hany
        simp only [hne, hany, Except.isOk]
        simp
        rfl
      · have hfalse : ((d :: rest).any fun x =>
            (findGenerated x.files).isSome) = false :=
          Bool.eq_false_iff.mpr hany
        have he := hiff.mpr hfalse
        simp only [he, hfalse, Except.isOk]
        simp
        rfl
  · intro hany
    unfold importGeneratedImages
    rw [importScan_eval]
    cases dirs with
    | nil => simp at hany
    | cons d rest =>
      have hne : (((d :: rest).filterMap fun x =>
          (findGenerated x.files).map fun fl => (x.num, fl)).isEmpty) = false := by
        rw [Bool.eq_false_iff]
        intro h
        rw [hiff.mp h] at hany
        exact Bool.noConfusion hany
      simp [hne]

/-- Witness for C7: a 5-slide directory tree missing slide 3's generated
file imports the other 4 slides in order and reports `missing = [3]`. -/
theorem import_missing_tolerated_witness :
    importGeneratedImages exDirs5 =
      .ok ([(1, GENERATED_IMAGE_FILENAME), (2, GENERATED_IMAGE_FILENAME),
            (4, GENERATED_IMAGE_FILENAME), (5, GENERATED_IMAGE_FILENAME)], [3]) :=
  (import_missing_tolerated exDirs5 []).2.2 rfl

/-! ## C8: export then import round trip -/

theorem findGenerated_filled (files : List String) :
    findGenerated (files ++ [GENERATED_IMAGE_FILENAME]) =
      some GENERATED_IMAGE_FILENAME := by
  simp [findGenerated]

theorem importScan_all_found (dirs : List SlideDir)
    (h : ∀ d ∈ dirs, findGenerated d.files = some GENERATED_IMAGE_FILENAME) :
    importScan dirs = (dirs.map fun d => (d.num, GENERATED_IMAGE_FILENAME), []) := by
  induction dirs with
  | nil => rfl
  | cons d rest ih =>
    have hd := h d (List.mem_cons_self d rest)
    have hrest : ∀ x ∈ rest, findGenerated x.files = some GENERATED_IMAGE_FILENAME :=
      fun x hx => h x (List.mem_cons_of_mem _ hx)
    simp [importScan, hd, ih hrest]

theorem importGeneratedImages_all_found (dirs : List SlideDir) (hne : dirs ≠ [])
    (h : ∀ d ∈ dirs, findGenerated d.files = some GENERATED_IMAGE_FILENAME) :
    importGeneratedImages dirs =
      .ok (dirs.map fun d => (d.num, GENERATED_IMAGE_FILENAME), []) := by
  unfold importGeneratedImages
  rcases dirs with _ | ⟨d, rest⟩
  · exact absurd rfl hne
  · rw [importScan_all_found _ h]
    simp

theorem exportSlides_dirs (plan : ContentPlan) (figure_images : List RefImage) :
    (exportSlides plan figure_images).dirs =
      (List.range plan.sections.length).map fun i =>
        ⟨i + 1, savedRefFilenames (filterImages [sectionAt plan i] figure_images)⟩ := by
  simp [exportSlides, exportSlide, List.map_map]

/-- C8: exporting a plan and then importing the export area after a
generated image has been placed under the canonical filename in every slide
directory reconstructs the full deck: slide numbers 1..N in ascending
order, an empty missing list, and the slide numbers map back, in order, to
the plan's section identifiers. -/
theorem export_import_round_trip (plan : ContentPlan) (figure_images : List RefImage)
    (h : plan.sections ≠ []) :
    importGeneratedImages (fillGenerated (exportSlides plan figure_images).dirs) =
      .ok ((List.range' 1 plan.sections.length).map
        (fun m => (m, GENERATED_IMAGE_FILENAME)), []) ∧
    (List.range' 1 plan.sections.length).map
        (fun m => (sectionAt plan (m - 1)).id) =
      plan.sections.map (fun s => s.id) := by
  have hn : 1 ≤ plan.sections.length := by
    cases hs : plan.sections with
    | nil => exact absurd hs h
    | cons a l => simp
  have hdirs : fillGenerated (exportSlides plan figure_images).dirs =
      (List.range plan.sections.length).map fun i =>
        (⟨i + 1, savedRefFilenames (filterImages [sectionAt plan i] figure_images)
           ++ [GENERATED_IMAGE_FILENAME]⟩ : SlideDir) := by
    rw [exportSlides_dirs]
    unfold fillGenerated
    rw [List.map_map]
    rfl
  constructor
  · rw [hdirs]
    rw [importGeneratedImages_all_found _ ?hne ?hall]
    case hne =>
      have hlen : ((List.range plan.sections.length).map fun i =>
          (⟨i + 1, savedRefFilenames (filterImages [sectionAt plan i] figure_images)
             ++ [GENERATED_IMAGE_FILENAME]⟩ : SlideDir)).length =
          plan.sections.length := by
        simp
      intro hnil
      rw [hnil] at hlen
      simp at hlen
      omega
    case hall =>
      intro d hd
      rcases List.mem_map.mp hd with ⟨i, _, rfl⟩
      exact findGenerated_filled _
    have hmapped : ((List.range plan.sections.length).map fun i =>
        (⟨i + 1, savedRefFilenames (filterImages [sectionAt plan i] figure_images)
           ++ [GENERATED_IMAGE_FILENAME]⟩ : SlideDir)).map
        (fun d => (d.num, GENERATED_IMAGE_FILENAME)) =
        (List.range' 1 plan.sections.length).map
          (fun m => (m, GENERATED_IMAGE_FILENAME)) := by
      rw [List.map_map, List.range'_eq_map_range, List.map_map]
      apply List.map_congr_left
      intro i _
      simp [Nat.add_comm]
    rw [hmapped]
  · rw [List.range'_eq_map_range, List.map_map]
    have hc : ((fun m => (sectionAt plan (m - 1)).id) ∘ (fun i => 1 + i)) =
        fun i => (sectionAt plan i).id := by
      funext i
      simp [Nat.add_comm 1 i]
    rw [hc]
    exact range_map_getD plan.sections default (fun s => s.id)

/-- Witness for C8 at a concrete plan with sections `a`, `b`, `c`. -/
theorem export_import_round_trip_witness :
    importGeneratedImages (fillGenerated (exportSlides exPlan3 []).dirs) =
      .ok ([(1, GENERATED_IMAGE_FILENAME), (2, GENERATED_IMAGE_FILENAME),
            (3, GENERATED_IMAGE_FILENAME)], []) ∧
    (List.range' 1 exPlan3.sections.length).map
        (fun m => (sectionAt exPlan3 (m - 1)).id) = ["a", "b", "c"] := by
  have h := export_import_round_trip exPlan3 [] (by decide)
  exact ⟨h.1.trans (by rfl), h.2.trans (by rfl)⟩

end Paper2Slides

